import Mathlib

/-!
Shallow embedding of the lectio_msg_via_playwright_api repository
(src/lectio.py, src/tasks.py, src/logs.py, src/main.py).

Modelling conventions:
- Browser interactions are fallible external calls; an environment record
  assigns each primitive interaction an outcome: `none` means the call
  succeeded, `some e` means it raised an exception whose text is `e`.
- `log_event` in logs.py is an `async def`. A bare call to it (as done
  everywhere in lectio.py) only constructs a coroutine object and never
  executes it; such constructed-but-never-run calls are collected in
  `pending` lists. Only `run_async(log_event(...))` (as done in tasks.py)
  actually inserts a row into the store; those inserted rows are collected
  in `appends` lists.
- Wall-clock timestamps are abstracted to the constant 0.
- Applitools (visual testing) interactions are modelled as absent, i.e. the
  inactive configuration; they do not occur on any path a claim mentions.
-/

inductive LogLevel
  | SUCCESS
  | INFO
  | WARNING
  | ERROR
deriving DecidableEq, Repr

/-- A log_event call: the argument tuple of logs.log_event.  A bare call in
lectio.py constructs exactly this data (a coroutine object) without running
it; run_async in tasks.py executes it, inserting one row. -/
structure LogCall where
  timestamp : Nat
  level : LogLevel
  task_id : String
  receiver : String
  description : String
deriving DecidableEq, Repr

/-- logs.log_event: builds the call (the coroutine object). -/
def log_event (timestamp : Nat) (level : LogLevel) (task_id receiver description : String) :
    LogCall :=
  { timestamp := timestamp, level := level, task_id := task_id,
    receiver := receiver, description := description }

/-- A row of the logs table (logs.py init_logs_table): SERIAL id plus the
log_event fields. -/
structure LogRecord where
  id : Nat
  timestamp : Nat
  log_level : LogLevel
  task_id : String
  receiver : String
  description : String
deriving DecidableEq, Repr

/-- Whether the first list is an initial segment of the second. -/
def startsWithList : List Char → List Char → Bool
  | [], _ => true
  | _ :: _, [] => false
  | a :: as, b :: bs => a == b && startsWithList as bs

/-- Whether the first list occurs as a contiguous run inside the second. -/
def subListSearch : List Char → List Char → Bool
  | needle, [] => needle.isEmpty
  | needle, c :: rest => startsWithList needle (c :: rest) || subListSearch needle rest

/-- Python `needle in hay` substring test (used by login_to_lectio on the
page title). -/
def strContainsSub (hay needle : String) : Bool :=
  subListSearch needle.data hay.data

/-- Outcome of a Python call that either returns a value or raises. -/
inductive SendOutcome
  | ret (b : Bool)
  | raised (e : String)
deriving DecidableEq, Repr

/-- Environment for one run of LectioBot.send_message with a live page:
the outcome of each fallible page interaction.  The per-attempt functions
take the 1-based attempt number of the recipient retry loop. -/
structure PageEnv where
  fillClear : Nat → Option String
  typeRecipient : Nat → Option String
  clickSuggestion : Nat → Option String
  subjectFill : Option String
  repliesClick : Option String
  messageFill : Option String
  sendClick : Option String

/-- lectio.py MAX_RETRIES: ceiling of the recipient-field retry loop. -/
def MAX_RETRIES : Nat := 20

/-- The single-quote character of the source f-strings, written via its
code point. -/
def singleQuote : String := String.mk [Char.ofNat 39]

/-- The ERROR log_event call constructed on the final failed recipient
attempt (lectio.py send_message, attempt == MAX_RETRIES branch).  Its
task_id argument is the literal string N/A and the recipient name is
single-quoted in the message text. -/
def recipientErrorCall (send_to e : String) : LogCall :=
  log_event 0 .ERROR "N/A" send_to
    (s!"Tried {MAX_RETRIES} times to find/click recipient " ++
     singleQuote ++ send_to ++ singleQuote ++ s!" but failed. Last error: {e}")

/-- The recipient retry loop of send_message (for attempt in range(1, 21)).
`fuel` equals MAX_RETRIES + 1 - attempt at every call from the entry point,
so the fuel-0 case is unreachable (the attempt == MAX_RETRIES branch exits
first).  Returns `some r` when the loop makes send_message return early
(exhausted: False plus the constructed ERROR coroutine), `none` when the
suggestion was clicked and the flow proceeds. -/
def recipientLoop (env : PageEnv) (send_to : String) :
    Nat → Nat → Option (SendOutcome × List LogCall)
  | _, 0 => none
  | attempt, fuel + 1 =>
    -- try: fill(""); type(send_to); click(text=send_to)
    let tryResult : Option String :=
      match env.fillClear attempt with
      | some e => some e
      | none =>
        match env.typeRecipient attempt with
        | some e => some e
        | none => env.clickSuggestion attempt
    match tryResult with
    | none => none  -- recipient_clicked = True; break
    | some e =>
      if attempt == MAX_RETRIES then
        some (.ret false, [recipientErrorCall send_to e])
      else
        recipientLoop env send_to (attempt + 1) fuel

/-- LectioBot.send_message.  `page` is None until start_playwright runs;
the task in tasks.py never runs it, so there the argument is `none` and the
very first statement (self.page.locator(...)) raises AttributeError.
The two `expect(locator, msg)` statements construct an assertion object and
perform no check, so they never fail; the subject/replies/message
interactions are unguarded, so their exceptions propagate; the send-click
block is guarded and returns False on failure. -/
def send_message (page : Option PageEnv) (send_to subject msg : String)
    (can_be_replied : Bool) : SendOutcome × List LogCall :=
  match page with
  | none => (.raised "AttributeError: NoneType object has no attribute locator", [])
  | some env =>
    match recipientLoop env send_to 1 MAX_RETRIES with
    | some r => r
    | none =>
      match env.subjectFill with
      | some e => (.raised e, [])
      | none =>
        match (if can_be_replied then none else env.repliesClick) with
        | some e => (.raised e, [])
        | none =>
          match env.messageFill with
          | some e => (.raised e, [])
          | none =>
            match env.sendClick with
            | some _ => (.ret false, [])
            | none => (.ret true, [])

/-- A PageEnv in which every interaction succeeds. -/
def okPage : PageEnv :=
  { fillClear := fun _ => none
    typeRecipient := fun _ => none
    clickSuggestion := fun _ => none
    subjectFill := none
    repliesClick := none
    messageFill := none
    sendClick := none }

example : send_message (some okPage) "John Doe" "s" "m" true = (.ret true, []) := by decide

/-- Environment for one attempt of the full flow: outcomes of the
start_playwright steps, the login page interactions, the messages-page
interactions, and the send_message interactions. -/
structure AttemptEnv where
  driverStart : Option String     -- sync_playwright().start()
  browserLaunch : Option String   -- playwright.chromium.launch(...)
  newPage : Option String         -- browser.new_page()
  loginGoto : Option String       -- page.goto(login_url)
  loginTitleCheck : Option String -- expect(.maintitle).to_contain_text("Lectio Log ind")
  usernameFill : Option String
  passwordFill : Option String
  submitClick : Option String
  pageTitle : String              -- page.title() after submitting the login form
  msgGoto : Option String         -- page.goto(beskeder2.aspx)
  newMessageLinkCheck : Option String
  newMessageClick : Option String
  send : PageEnv

/-- LectioBot.login_to_lectio: two guarded blocks; any raise inside either
is caught and turns into `return False`; the title-membership check raises
an AssertionError (caught by the second block) when the user name does not
occur in the page title. -/
def login_to_lectio (lectio_user : String) (a : AttemptEnv) : Bool :=
  match a.loginGoto with
  | some _ => false
  | none =>
    match a.loginTitleCheck with
    | some _ => false
    | none =>
      match a.usernameFill with
      | some _ => false
      | none =>
        match a.passwordFill with
        | some _ => false
        | none =>
          match a.submitClick with
          | some _ => false
          | none => strContainsSub a.pageTitle lectio_user

/-- LectioBot.navigate_to_messages: one guarded block; any raise gives
`return False`. -/
def navigate_to_messages (a : AttemptEnv) : Bool :=
  match a.msgGoto with
  | some _ => false
  | none =>
    match a.newMessageLinkCheck with
    | some _ => false
    | none =>
      match a.newMessageClick with
      | some _ => false
      | none => true

/-- Mutable state of a LectioBot plus the instrumentation the spec asks a
collaborator stub to track (open/close call balance, concurrent-session
count) and the two logging effect streams.  `pending` holds log_event
coroutines constructed but never awaited; `storeAppends` holds rows
actually inserted into the store (only run_async does that, and no
LectioBot code path calls run_async). -/
structure BotState where
  playwrightSet : Bool := false
  browserSet : Bool := false
  browserOpen : Bool := false
  pageSet : Bool := false
  attempts : Nat := 0
  opens : Nat := 0
  closes : Nat := 0
  curOpen : Nat := 0
  maxOpen : Nat := 0
  pending : List LogCall := []
  storeAppends : List LogRecord := []
deriving DecidableEq, Repr

/-- Result of start_playwright: either it completed, or one of its steps
raised, was caught, and the process exited via sys.exit(1).  SystemExit is
not an Exception, so no `except Exception` handler upstream catches it. -/
inductive StartResult
  | ok
  | exited (code : Nat)
deriving DecidableEq, Repr

/-- LectioBot.start_playwright (applitools inactive).  On any failure it
prints and calls sys.exit(1), leaving whatever was already opened open. -/
def start_playwright (st : BotState) (a : AttemptEnv) : BotState × StartResult :=
  match a.driverStart with
  | some _ => (st, .exited 1)
  | none =>
    let st := { st with playwrightSet := true }
    match a.browserLaunch with
    | some _ => (st, .exited 1)
    | none =>
      let st := { st with
        browserSet := true
        browserOpen := true
        opens := st.opens + 1
        curOpen := st.curOpen + 1
        maxOpen := max st.maxOpen (st.curOpen + 1) }
      match a.newPage with
      | some _ => (st, .exited 1)
      | none => ({ st with pageSet := true }, .ok)

/-- LectioBot.stop_playwright: `if self.browser: self.browser.close()`
followed by `if self.playwright: self.playwright.stop()`; its own
exceptions are swallowed.  The close call is counted whenever the browser
object is set (the source never clears the field). -/
def stop_playwright (st : BotState) : BotState :=
  if st.browserSet then
    { st with closes := st.closes + 1, browserOpen := false, curOpen := st.curOpen - 1 }
  else st

/-- Outcome of send_message_with_full_retry: a return value, a propagated
exception, or a process exit from a failed start_playwright. -/
inductive FlowOutcome
  | ret (b : Bool)
  | raised (e : String)
  | exited (code : Nat)
deriving DecidableEq, Repr

def FlowOutcome.isExited : FlowOutcome → Bool
  | .exited _ => true
  | _ => false

/-- lectio.py MAX_FLOW_RETRIES: ceiling of the flow-level retry loop. -/
def MAX_FLOW_RETRIES : Nat := 20

/-- One iteration of the try-block of send_message_with_full_retry:
start, login, navigate, send; a False from a step is turned into a raise;
on full success the browser is stopped and True returned. -/
def flowAttempt (st : BotState) (a : AttemptEnv) (lectio_user send_to subject msg : String)
    (can_be_replied : Bool) : BotState × FlowOutcome :=
  match start_playwright st a with
  | (st, .exited c) => (st, .exited c)
  | (st, .ok) =>
    if ¬ login_to_lectio lectio_user a then
      (st, .raised "login_to_lectio() failed")
    else if ¬ navigate_to_messages a then
      (st, .raised "navigate_to_messages() failed")
    else
      match send_message (some a.send) send_to subject msg can_be_replied with
      | (.raised e, calls) =>
        ({ st with pending := st.pending ++ calls }, .raised e)
      | (.ret false, calls) =>
        ({ st with pending := st.pending ++ calls }, .raised "send_message() failed")
      | (.ret true, calls) =>
        (stop_playwright { st with pending := st.pending ++ calls }, .ret true)

/-- The per-retry INFO log_event call of send_message_with_full_retry. -/
def flowInfoCall (task_id send_to : String) (attempt : Nat) (e : String) : LogCall :=
  log_event 0 .INFO task_id send_to
    (s!"Flow attempt {attempt}/{MAX_FLOW_RETRIES} failed with error: {e}. " ++
     "Will retry from scratch...")

/-- The final ERROR log_event call of send_message_with_full_retry. -/
def flowErrorCall (task_id send_to : String) (e : String) : LogCall :=
  log_event 0 .ERROR task_id send_to
    (s!"Failed entire send flow after {MAX_FLOW_RETRIES} attempts. Last error: {e}")

/-- The flow retry loop (for attempt in range(1, 21)).  `fuel` equals
MAX_FLOW_RETRIES + 1 - attempt from the entry point; the fuel-0 case is the
unreachable trailing `return False` of the source.  On an exception the
browser is stopped; the final attempt constructs the ERROR coroutine and
re-raises, earlier attempts construct the INFO coroutine and retry. -/
def fullRetryAux (envs : Nat → AttemptEnv) (lectio_user send_to subject task_id msg : String)
    (can_be_replied : Bool) : Nat → Nat → BotState → BotState × FlowOutcome
  | _, 0, st => (st, .ret false)
  | attempt, fuel + 1, st =>
    let st := { st with attempts := st.attempts + 1 }
    match flowAttempt st (envs attempt) lectio_user send_to subject msg can_be_replied with
    | (st, .exited c) => (st, .exited c)
    | (st, .ret b) => (st, .ret b)
    | (st, .raised e) =>
      let st := stop_playwright st
      if attempt == MAX_FLOW_RETRIES then
        ({ st with pending := st.pending ++ [flowErrorCall task_id send_to e] }, .raised e)
      else
        let st := { st with pending := st.pending ++ [flowInfoCall task_id send_to attempt e] }
        fullRetryAux envs lectio_user send_to subject task_id msg can_be_replied
          (attempt + 1) fuel st

/-- LectioBot.send_message_with_full_retry on a freshly constructed bot. -/
def send_message_with_full_retry (envs : Nat → AttemptEnv)
    (lectio_user send_to subject task_id msg : String) (can_be_replied : Bool) :
    BotState × FlowOutcome :=
  fullRetryAux envs lectio_user send_to subject task_id msg can_be_replied
    1 MAX_FLOW_RETRIES {}

/-- An attempt environment in which everything succeeds. -/
def okAttempt (user : String) : AttemptEnv :=
  { driverStart := none, browserLaunch := none, newPage := none
    loginGoto := none, loginTitleCheck := none
    usernameFill := none, passwordFill := none, submitClick := none
    pageTitle := "Lectio - " ++ user
    msgGoto := none, newMessageLinkCheck := none, newMessageClick := none
    send := okPage }

example :
    (send_message_with_full_retry (fun _ => okAttempt "u1") "u1" "John Doe" "s" "t1" "m" true).2 =
      .ret true := by decide

/-- Terminal state of a Celery job. -/
inductive JobResult
  | success
  | failed (e : String)
deriving DecidableEq, Repr

/-- One whole Celery job: its terminal state, the rows actually inserted
into the store (all via run_async in tasks.py), the number of executions
of the task body, and the send_message outcome of the last execution. -/
structure JobRun where
  result : JobResult
  appends : List LogCall
  executions : Nat
  finalOutcome : Option SendOutcome
deriving DecidableEq, Repr

/-- The starting INFO row of send_lectio_msg (run_async, so inserted). -/
def startCall (task_id send_to : String) : LogCall :=
  log_event 0 .INFO task_id send_to (s!"Starting to send Lectio message to {send_to}.")

/-- The SUCCESS row of BaseTaskWithLogging.on_success. -/
def successCall (task_id send_to : String) : LogCall :=
  log_event 0 .SUCCESS task_id send_to (s!"Task {task_id} completed successfully.")

/-- The WARNING row of the except-branch of send_lectio_msg, where k is
self.request.retries of the current execution. -/
def warnCall (task_id send_to : String) (k : Nat) (e : String) : LogCall :=
  log_event 0 .WARNING task_id send_to
    (s!"Flow attempt {k + 1}/20 failed with error: {e}. Will retry...")

/-- The ERROR row of the MaxRetriesExceededError branch of send_lectio_msg. -/
def maxRetriesCall (task_id send_to : String) (k : Nat) : LogCall :=
  log_event 0 .ERROR task_id send_to (s!"Task {task_id} failed after {k} retries.")

/-- The ERROR row of BaseTaskWithLogging.on_failure. -/
def failureCall (task_id send_to : String) (e : String) : LogCall :=
  log_event 0 .ERROR task_id send_to (s!"Task {task_id} failed with error: {e}")

/-- The Celery execution loop around send_lectio_msg.  `sm k` is the
outcome of the lectio_session.send_message call in the execution with
self.request.retries = k (the behavior of the callee is the parameter of this
compositional model).  Each execution inserts the start INFO row; a
returning body (either boolean — the return value is discarded) ends the
job via on_success; a raising body inserts the WARNING row and calls
self.retry, which re-executes with retries+1, or raises
MaxRetriesExceededError once retries+1 would exceed max_retries=20, upon
which the ERROR row is inserted, the exception re-raised, and on_failure
inserts its ERROR row. -/
def celeryLoop (sm : Nat → SendOutcome) (task_id send_to : String) :
    Nat → Nat → List LogCall → JobRun
  | k, 0, acc =>
    -- unreachable from runCeleryJob: fuel = MAX_FLOW_RETRIES + 1 - k there,
    -- and the MAX_FLOW_RETRIES ≤ k branch exits before fuel runs out
    { result := .failed "", appends := acc, executions := k, finalOutcome := none }
  | k, fuel + 1, acc =>
    let acc := acc ++ [startCall task_id send_to]
    match sm k with
    | .ret b =>
      { result := .success
        appends := acc ++ [successCall task_id send_to]
        executions := k + 1
        finalOutcome := some (.ret b) }
    | .raised e =>
      let acc := acc ++ [warnCall task_id send_to k e]
      if MAX_FLOW_RETRIES ≤ k then
        { result := .failed e
          appends := acc ++ [maxRetriesCall task_id send_to k, failureCall task_id send_to e]
          executions := k + 1
          finalOutcome := some (.raised e) }
      else
        celeryLoop sm task_id send_to (k + 1) fuel acc

/-- A whole Celery job for send_lectio_msg, from its first execution. -/
def runCeleryJob (sm : Nat → SendOutcome) (task_id send_to : String) : JobRun :=
  celeryLoop sm task_id send_to 0 (MAX_FLOW_RETRIES + 1) []

/-- The send_message outcome of one execution of the actual task body:
tasks.py constructs a LectioBot and calls send_message on it directly,
without ever calling start_playwright (or login_to_lectio,
navigate_to_messages, or send_message_with_full_retry), so the page of the bot
is None on every execution. -/
def taskBodySendOutcome (send_to subject msg : String) (can_be_replied : Bool) :
    SendOutcome :=
  (send_message none send_to subject msg can_be_replied).1

/-- tasks.send_lectio_msg as deployed: the Celery job whose every
execution calls send_message on a page-less bot. -/
def run_send_lectio_msg (task_id send_to subject msg : String) (can_be_replied : Bool) :
    JobRun :=
  runCeleryJob (fun _ => taskBodySendOutcome send_to subject msg can_be_replied)
    task_id send_to

/-- The response of POST /send-message (main.py api_send_message). -/
structure SendResponse where
  task_id : String
  status : String
deriving DecidableEq, Repr

/-- A POST /send-message request body (main.py MessageRequest). -/
structure MessageRequest where
  lectio_school_id : String
  lectio_user : String
  lectio_password : String
  send_to : String
  subject : String
  body : String
  can_be_replied : Bool
deriving DecidableEq, Repr

/-- main.py api_send_message: enqueues send_lectio_msg with the fields of
the request and immediately returns the task id with status "Task submitted".
`task_id` is the broker-assigned id and `sm` the eventual per-execution
send_message outcomes of the enqueued job; the response is computed before
the job runs. -/
def api_send_message (req : MessageRequest) (task_id : String)
    (sm : Nat → SendOutcome) : SendResponse × JobRun :=
  ({ task_id := task_id, status := "Task submitted" },
   runCeleryJob sm task_id req.send_to)

/-- Insert a record into a list sorted by descending id. -/
def insertDescById (r : LogRecord) : List LogRecord → List LogRecord
  | [] => [r]
  | b :: t => if b.id ≤ r.id then r :: b :: t else b :: insertDescById r t

/-- ORDER BY id DESC over a set of rows (ids are unique, so any sorted
rearrangement is the SQL result). -/
def sortByIdDesc : List LogRecord → List LogRecord
  | [] => []
  | r :: t => insertDescById r (sortByIdDesc t)

/-- The SELECT ... FROM logs WHERE task_id = %s ORDER BY id DESC query:
the body of logs.py fetch_logs_by_task_id, and the statement main.py
get_logs_by_task_id intends to execute (but never reaches, see
get_logs_by_task_id below). -/
def fetch_logs_by_task_id (store : List LogRecord) (task_id : String) : List LogRecord :=
  sortByIdDesc (store.filter (fun r => r.task_id == task_id))

/-- main.py get_logs_by_task_id, the handler of GET /logs/by_task_id/{id}:
a sync function whose first statement is conn = get_connection() — a bare
call to the async def get_connection of logs.py, so conn is a coroutine
object, not a connection, and the following conn.cursor() raises
AttributeError before the SELECT ever runs.  Every request errors; the
handler never returns rows from any store. -/
def get_logs_by_task_id (store : List LogRecord) (task_id : String) :
    Except String (List LogRecord) :=
  .error "AttributeError: coroutine object has no attribute cursor"

/-- Modelled from the spec for comparison with fetch_logs_by_task_id: the
records whose task_id matches, newest-first, i.e. the matching rows in
reverse insertion order. -/
def specQueryByTaskId (store : List LogRecord) (task_id : String) : List LogRecord :=
  (store.filter (fun r => r.task_id == task_id)).reverse

example :
    (run_send_lectio_msg "t1" "John Doe" "s" "m" true).result =
      .failed "AttributeError: NoneType object has no attribute locator" := by decide

/-! Helper lemmas about the ORDER BY id DESC model. -/

lemma insertDescById_of_lt (r : LogRecord) :
    ∀ m : List LogRecord, (∀ b ∈ m, r.id < b.id) → insertDescById r m = m ++ [r] := by
  intro m
  induction m with
  | nil => intro _; rfl
  | cons b t ih =>
    intro h
    have hb : r.id < b.id := h b (List.mem_cons_self b t)
    have : ¬ b.id ≤ r.id := by omega
    simp only [insertDescById, if_neg this, List.cons_append]
    rw [ih (fun x hx => h x (List.mem_cons_of_mem b hx))]

lemma sortByIdDesc_of_ascending :
    ∀ l : List LogRecord, l.Pairwise (fun a b => a.id < b.id) →
      sortByIdDesc l = l.reverse := by
  intro l
  induction l with
  | nil => intro _; rfl
  | cons r t ih =>
    intro h
    rw [List.pairwise_cons] at h
    simp only [sortByIdDesc]
    rw [ih h.2, insertDescById_of_lt r t.reverse
      (fun b hb => h.1 b (List.mem_reverse.mp hb))]
    simp

lemma mem_insertDescById {c r : LogRecord} :
    ∀ {m : List LogRecord}, c ∈ insertDescById r m ↔ c = r ∨ c ∈ m := by
  intro m
  induction m with
  | nil => simp [insertDescById]
  | cons b t ih =>
    simp only [insertDescById]
    split
    · simp [List.mem_cons]
    · simp only [List.mem_cons, ih]
      tauto

lemma mem_sortByIdDesc {c : LogRecord} :
    ∀ {l : List LogRecord}, c ∈ sortByIdDesc l ↔ c ∈ l := by
  intro l
  induction l with
  | nil => simp [sortByIdDesc]
  | cons r t ih => simp [sortByIdDesc, mem_insertDescById, ih]

/-- The SELECT ... WHERE task_id = %s ORDER BY id DESC query returns
exactly the stored records whose task_id equals the queried id,
newest-first, i.e. the matching records in descending insertion order —
provided the store is well-formed (ids strictly increase in insertion
order, as the SERIAL column guarantees).  This is the semantics the
GET /logs/by_task_id/{id} handler intends; the handler itself never
reaches the query (see the C6 theorem below). -/
theorem fetch_by_task_id_matches_newest_first (store : List LogRecord) (tid : String)
    (h : store.Pairwise (fun a b => a.id < b.id)) :
    fetch_logs_by_task_id store tid = specQueryByTaskId store tid ∧
    ∀ r ∈ fetch_logs_by_task_id store tid, r.task_id = tid := by
  have hp : (store.filter (fun r => r.task_id == tid)).Pairwise (fun a b => a.id < b.id) :=
    h.sublist (List.filter_sublist store)
  have heq : fetch_logs_by_task_id store tid = specQueryByTaskId store tid := by
    unfold fetch_logs_by_task_id specQueryByTaskId
    exact sortByIdDesc_of_ascending _ hp
  refine ⟨heq, ?_⟩
  intro r hr
  rw [heq] at hr
  unfold specQueryByTaskId at hr
  rw [List.mem_reverse, List.mem_filter] at hr
  exact beq_iff_eq.mp hr.2

/-- A small concrete store: three rows, two for task a, one for task b. -/
def store3 : List LogRecord :=
  [{ id := 1, timestamp := 0, log_level := .INFO, task_id := "a", receiver := "r",
     description := "d1" },
   { id := 2, timestamp := 0, log_level := .ERROR, task_id := "b", receiver := "r",
     description := "d2" },
   { id := 3, timestamp := 0, log_level := .SUCCESS, task_id := "a", receiver := "r",
     description := "d3" }]

/-- The query-semantics lemma instantiated at the concrete store store3
and task id a. -/
theorem fetch_by_task_id_matches_newest_first_at_store3 :
    store3.Pairwise (fun a b => a.id < b.id) ∧
    (fetch_logs_by_task_id store3 "a" = specQueryByTaskId store3 "a" ∧
     ∀ r ∈ fetch_logs_by_task_id store3 "a", r.task_id = "a") :=
  ⟨by decide, fetch_by_task_id_matches_newest_first store3 "a" (by decide)⟩

/-- C6: evaluation of GET /logs/by_task_id/{id} at any request: the
handler calls the async get_connection without await (a coroutine object,
the same bare-async slip as in lectio.py), so it raises AttributeError on
every store and every id and never returns the records the claim
describes — while the SELECT it intends to run does have exactly the
claimed only-matching, newest-first semantics, shown here at the concrete
store store3. -/
theorem logs_by_task_id_endpoint_always_raises :
    (∀ (store : List LogRecord) (tid : String),
      get_logs_by_task_id store tid =
        .error "AttributeError: coroutine object has no attribute cursor") ∧
    fetch_logs_by_task_id store3 "a" = specQueryByTaskId store3 "a" :=
  ⟨fun _ _ => rfl, by decide⟩

/-! Helper lemmas about the Celery job model. -/

lemma celeryLoop_success_counts (sm : Nat → SendOutcome) (tid r : String) :
    ∀ fuel k acc, (celeryLoop sm tid r k fuel acc).result = .success →
      (celeryLoop sm tid r k fuel acc).appends.countP (fun c => c.level == .SUCCESS) =
        acc.countP (fun c => c.level == .SUCCESS) + 1 ∧
      (celeryLoop sm tid r k fuel acc).appends.filter (fun c => c.level == .ERROR) =
        acc.filter (fun c => c.level == .ERROR) := by
  intro fuel
  induction fuel with
  | zero => intro k acc h; simp [celeryLoop] at h
  | succ fuel ih =>
    intro k acc h
    simp only [celeryLoop] at h ⊢
    cases hsm : sm k with
    | ret b =>
      simp only [hsm]
      simp [startCall, successCall, log_event, List.countP_append, List.filter_append,
        List.countP_cons, List.filter_cons]
    | raised e =>
      simp only [hsm] at h ⊢
      by_cases hk : MAX_FLOW_RETRIES ≤ k
      · simp only [if_pos hk] at h
        simp at h
      · simp only [if_neg hk] at h ⊢
        have := ih (k + 1) ((acc ++ [startCall tid r]) ++ [warnCall tid r k e]) h
        rw [this.1, this.2]
        simp [startCall, warnCall, log_event, List.countP_append, List.filter_append,
          List.countP_cons, List.filter_cons]

lemma celeryLoop_finalOutcome_ret (sm : Nat → SendOutcome) (tid r : String) :
    ∀ fuel k acc b, (celeryLoop sm tid r k fuel acc).finalOutcome = some (.ret b) →
      (celeryLoop sm tid r k fuel acc).result = .success := by
  intro fuel
  induction fuel with
  | zero => intro k acc b h; simp [celeryLoop] at h
  | succ fuel ih =>
    intro k acc b h
    simp only [celeryLoop] at h ⊢
    cases hsm : sm k with
    | ret b₂ => simp [hsm]
    | raised e =>
      simp only [hsm] at h ⊢
      by_cases hk : MAX_FLOW_RETRIES ≤ k
      · simp only [if_pos hk] at h
        simp at h
      · simp only [if_neg hk] at h ⊢
        exact ih (k + 1) _ b h

lemma celeryLoop_terminal_exists (sm : Nat → SendOutcome) (tid r : String) :
    ∀ fuel k acc, MAX_FLOW_RETRIES - k < fuel →
      ∃ c ∈ (celeryLoop sm tid r k fuel acc).appends,
        c.level = .SUCCESS ∨ c.level = .ERROR := by
  intro fuel
  induction fuel with
  | zero => intro k acc h; omega
  | succ fuel ih =>
    intro k acc h
    simp only [celeryLoop]
    cases hsm : sm k with
    | ret b =>
      refine ⟨successCall tid r, ?_, Or.inl rfl⟩
      simp
    | raised e =>
      by_cases hk : MAX_FLOW_RETRIES ≤ k
      · simp only [if_pos hk]
        refine ⟨maxRetriesCall tid r k, ?_, Or.inr rfl⟩
        simp
      · simp only [if_neg hk]
        refine ih (k + 1) _ ?_
        simp only [MAX_FLOW_RETRIES] at *
        omega

lemma celeryLoop_ret_step (sm : Nat → SendOutcome) (tid r : String) (k fuel : Nat)
    (acc : List LogCall) (b : Bool) (h : sm k = .ret b) :
    celeryLoop sm tid r k (fuel + 1) acc =
      { result := .success
        appends := (acc ++ [startCall tid r]) ++ [successCall tid r]
        executions := k + 1
        finalOutcome := some (.ret b) } := by
  simp [celeryLoop, h]

/-- C4: for every Celery job of send_lectio_msg whose final execution has a
send_message call returning True (the send completed successfully), the rows
inserted for that job id contain exactly one SUCCESS row (appended by
BaseTaskWithLogging.on_success) and no ERROR row at all. -/
theorem success_job_logs_one_success_no_error (sm : Nat → SendOutcome)
    (task_id send_to : String)
    (h : (runCeleryJob sm task_id send_to).finalOutcome = some (.ret true)) :
    (runCeleryJob sm task_id send_to).appends.countP (fun c => c.level == .SUCCESS) = 1 ∧
    (runCeleryJob sm task_id send_to).appends.filter (fun c => c.level == .ERROR) = [] := by
  have hres : (runCeleryJob sm task_id send_to).result = .success :=
    celeryLoop_finalOutcome_ret sm task_id send_to _ 0 [] true h
  have := celeryLoop_success_counts sm task_id send_to (MAX_FLOW_RETRIES + 1) 0 [] hres
  simpa using this

/-- Witness for C4: a job whose only execution returns True. -/
theorem success_job_logs_one_success_no_error_witness :
    (runCeleryJob (fun _ => .ret true) "t1" "r1").finalOutcome = some (.ret true) ∧
    ((runCeleryJob (fun _ => .ret true) "t1" "r1").appends.countP
        (fun c => c.level == .SUCCESS) = 1 ∧
     (runCeleryJob (fun _ => .ret true) "t1" "r1").appends.filter
        (fun c => c.level == .ERROR) = []) :=
  ⟨by decide, success_job_logs_one_success_no_error (fun _ => .ret true) "t1" "r1" (by decide)⟩

/-- C7: POST /send-message answers every valid request with
{task_id, status = "Task submitted"}, whatever the enqueued job later does
(the response does not depend on the outcomes of the job at all); the
eventual job outcome is recorded in the log store as a terminal SUCCESS or
ERROR row, which the log query endpoints read. -/
theorem send_message_endpoint_response (req : MessageRequest) (task_id : String)
    (sm : Nat → SendOutcome) :
    (api_send_message req task_id sm).1 = { task_id := task_id, status := "Task submitted" } ∧
    ∃ c ∈ (api_send_message req task_id sm).2.appends,
      c.level = .SUCCESS ∨ c.level = .ERROR := by
  refine ⟨rfl, ?_⟩
  exact celeryLoop_terminal_exists sm task_id req.send_to (MAX_FLOW_RETRIES + 1) 0 []
    (by simp [MAX_FLOW_RETRIES])

/-- C8: a send_lectio_msg execution in which send_message returns False
without raising still ends the job as a Celery success: the boolean is
discarded, no retry happens (one execution only), and on_success inserts a
SUCCESS row even though no message was sent; no ERROR row is inserted. -/
theorem false_return_counts_as_success (sm : Nat → SendOutcome) (task_id send_to : String)
    (h : sm 0 = .ret false) :
    (runCeleryJob sm task_id send_to).result = .success ∧
    (runCeleryJob sm task_id send_to).executions = 1 ∧
    (runCeleryJob sm task_id send_to).appends.countP (fun c => c.level == .SUCCESS) = 1 ∧
    (runCeleryJob sm task_id send_to).appends.filter (fun c => c.level == .ERROR) = [] := by
  have hstep := celeryLoop_ret_step sm task_id send_to 0 MAX_FLOW_RETRIES [] false h
  unfold runCeleryJob
  rw [show MAX_FLOW_RETRIES + 1 = MAX_FLOW_RETRIES + 1 from rfl, hstep]
  refine ⟨rfl, rfl, ?_, ?_⟩
  · simp [startCall, successCall, log_event, List.countP_append, List.countP_cons]
  · simp [startCall, successCall, log_event, List.filter_append, List.filter_cons]

/-- Witness for C8: a job whose first execution returns False. -/
theorem false_return_counts_as_success_witness :
    (fun _ => SendOutcome.ret false) 0 = SendOutcome.ret false ∧
    ((runCeleryJob (fun _ => .ret false) "t1" "r1").result = .success ∧
     (runCeleryJob (fun _ => .ret false) "t1" "r1").executions = 1 ∧
     (runCeleryJob (fun _ => .ret false) "t1" "r1").appends.countP
        (fun c => c.level == .SUCCESS) = 1 ∧
     (runCeleryJob (fun _ => .ret false) "t1" "r1").appends.filter
        (fun c => c.level == .ERROR) = []) :=
  ⟨rfl, false_return_counts_as_success (fun _ => .ret false) "t1" "r1" rfl⟩

/-- C1: evaluation of the deployed task at a concrete send request.  The
task body calls send_message directly on a LectioBot whose page is None
(start_playwright, login_to_lectio, navigate_to_messages and
send_message_with_full_retry are never invoked), so every one of the 21
Celery executions raises AttributeError, the job ends failed, and no
SUCCESS row is ever inserted — the full login → navigate → send flow never
runs. -/
theorem task_runner_never_runs_flow :
    taskBodySendOutcome "John Doe" "s" "m" true =
      .raised "AttributeError: NoneType object has no attribute locator" ∧
    (run_send_lectio_msg "t1" "John Doe" "s" "m" true).result =
      .failed "AttributeError: NoneType object has no attribute locator" ∧
    (run_send_lectio_msg "t1" "John Doe" "s" "m" true).executions = 21 ∧
    (run_send_lectio_msg "t1" "John Doe" "s" "m" true).appends.countP
      (fun c => c.level == .SUCCESS) = 0 := by
  refine ⟨by decide, by decide, by decide, by decide⟩

/-- Stub page on which the recipient-suggestion click fails on attempts
1..19 and succeeds on attempt 20; every other interaction succeeds. -/
def failThenSucceedPage : PageEnv :=
  { okPage with
    clickSuggestion := fun i => if i < 20 then some "no clickable suggestion" else none }

/-- Stub page on which the recipient-suggestion click fails on every
attempt; every other interaction succeeds. -/
def alwaysFailClickPage : PageEnv :=
  { okPage with clickSuggestion := fun _ => some "no clickable suggestion" }

/-- C3 (evaluation at the two stub backends of the claim): when the
recipient click fails 19 times and succeeds on the 20th, send_message
returns True with no log call at all; when it fails all 20 times,
send_message returns False and the single ERROR log_event call it
constructs cites 20 attempts — but that call is an unawaited coroutine, so
the ERROR record the claim says is emitted never reaches the store (the
call appears only in the pending-coroutine list, which nothing runs). -/
theorem recipient_retry_ceiling_behavior :
    send_message (some failThenSucceedPage) "John Doe" "s" "m" true = (.ret true, []) ∧
    (send_message (some alwaysFailClickPage) "John Doe" "s" "m" true).1 = .ret false ∧
    (send_message (some alwaysFailClickPage) "John Doe" "s" "m" true).2 =
      [recipientErrorCall "John Doe" "no clickable suggestion"] ∧
    (recipientErrorCall "John Doe" "no clickable suggestion").description =
      "Tried 20 times to find/click recipient " ++ singleQuote ++ "John Doe" ++
      singleQuote ++ " but failed. Last error: no clickable suggestion" := by
  refine ⟨by decide, by decide, by decide, by decide⟩

/-! Helper lemmas for C10: every log_event call the recipient retry can
construct carries task_id N/A. -/

lemma recipientLoop_calls_na (env : PageEnv) (send_to : String) :
    ∀ fuel attempt o calls, recipientLoop env send_to attempt fuel = some (o, calls) →
      ∀ c ∈ calls, c.task_id = "N/A" ∧ c.level = .ERROR := by
  intro fuel
  induction fuel with
  | zero => intro attempt o calls h; simp [recipientLoop] at h
  | succ fuel ih =>
    intro attempt o calls h
    simp only [recipientLoop] at h
    rcases hf : env.fillClear attempt with _ | e₁ <;> rw [hf] at h
    · rcases ht : env.typeRecipient attempt with _ | e₂ <;> rw [ht] at h
      · rcases hc : env.clickSuggestion attempt with _ | e₃ <;> rw [hc] at h
        · simp at h
        · simp only [] at h
          split at h
          · cases h
            intro c hc2
            rcases List.mem_singleton.mp hc2 with rfl
            exact ⟨rfl, rfl⟩
          · exact ih attempt.succ o calls h
      · simp only [] at h
        split at h
        · cases h
          intro c hc2
          rcases List.mem_singleton.mp hc2 with rfl
          exact ⟨rfl, rfl⟩
        · exact ih attempt.succ o calls h
    · simp only [] at h
      split at h
      · cases h
        intro c hc2
        rcases List.mem_singleton.mp hc2 with rfl
        exact ⟨rfl, rfl⟩
      · exact ih attempt.succ o calls h

lemma send_message_calls_na (env : PageEnv) (send_to subject msg : String)
    (can_be_replied : Bool) :
    ∀ c ∈ (send_message (some env) send_to subject msg can_be_replied).2,
      c.task_id = "N/A" ∧ c.level = .ERROR := by
  intro c hc
  simp only [send_message] at hc
  rcases hrl : recipientLoop env send_to 1 MAX_RETRIES with _ | ⟨o, calls⟩ <;>
    simp only [hrl] at hc
  · rcases h2 : env.subjectFill with _ | e <;> simp only [h2] at hc
    · rcases h3 : (if can_be_replied = true then (none : Option String) else env.repliesClick)
          with _ | e <;> simp only [h3] at hc
      · rcases h4 : env.messageFill with _ | e <;> simp only [h4] at hc
        · rcases h5 : env.sendClick with _ | e <;> simp only [h5] at hc <;> simp at hc
        · simp at hc
      · simp at hc
    · simp at hc
  · exact recipientLoop_calls_na env send_to MAX_RETRIES 1 o calls hrl c hc

/-- Invariant between flow attempts: no browser session open, open and
close calls balanced, never more than one session open so far. -/
def BotBalanced (st : BotState) : Prop :=
  st.browserOpen = false ∧ st.curOpen = 0 ∧ st.opens = st.closes ∧ st.maxOpen ≤ 1

/-- State right after a completed start_playwright: exactly one session
open, one more open than close call, browser object set. -/
def BotStarted (st : BotState) : Prop :=
  st.browserSet = true ∧ st.browserOpen = true ∧ st.curOpen = 1 ∧
  st.opens = st.closes + 1 ∧ st.maxOpen ≤ 1

lemma start_playwright_balanced (st : BotState) (a : AttemptEnv) (h : BotBalanced st) :
    ((start_playwright st a).2 = .ok → BotStarted (start_playwright st a).1) ∧
    (start_playwright st a).1.maxOpen ≤ 1 := by
  obtain ⟨h1, h2, h3, h4⟩ := h
  unfold start_playwright
  rcases a.driverStart with _ | e
  · rcases a.browserLaunch with _ | e
    · rcases a.newPage with _ | e
      · simp [BotStarted, h1, h2, h3, h4]
      · simp [h2, h4]
    · simp [h4]
  · simp [h4]

lemma stop_playwright_balanced (st : BotState) (h : BotStarted st) :
    BotBalanced (stop_playwright st) := by
  obtain ⟨h1, h2, h3, h4, h5⟩ := h
  unfold stop_playwright BotBalanced
  rw [if_pos h1]
  exact ⟨rfl, by simp [h3], by simp [h4], by simpa using h5⟩

lemma flowAttempt_balanced (st : BotState) (a : AttemptEnv)
    (lectio_user send_to subject msg : String) (can_be_replied : Bool)
    (h : BotBalanced st) :
    (∀ b, (flowAttempt st a lectio_user send_to subject msg can_be_replied).2 = .ret b →
      BotBalanced (flowAttempt st a lectio_user send_to subject msg can_be_replied).1) ∧
    (∀ e, (flowAttempt st a lectio_user send_to subject msg can_be_replied).2 = .raised e →
      BotStarted (flowAttempt st a lectio_user send_to subject msg can_be_replied).1) ∧
    (flowAttempt st a lectio_user send_to subject msg can_be_replied).1.maxOpen ≤ 1 := by
  have hsp := start_playwright_balanced st a h
  unfold flowAttempt
  rcases heq : start_playwright st a with ⟨st1, r1⟩
  rw [heq] at hsp
  cases r1 with
  | exited c =>
    refine ⟨fun b hb => by simp at hb, fun e he => by simp at he, hsp.2⟩
  | ok =>
    have hst1 : BotStarted st1 := hsp.1 rfl
    simp only []
    split
    · exact ⟨fun b hb => by simp at hb, fun e he => hst1, hst1.2.2.2.2⟩
    · split
      · exact ⟨fun b hb => by simp at hb, fun e he => hst1, hst1.2.2.2.2⟩
      · rcases send_message (some a.send) send_to subject msg can_be_replied with ⟨o, calls⟩
        have hst1p : BotStarted { st1 with pending := st1.pending ++ calls } := by
          obtain ⟨g1, g2, g3, g4, g5⟩ := hst1
          exact ⟨g1, g2, g3, g4, g5⟩
        rcases o with b | e
        · rcases b
          · exact ⟨fun b hb => by simp at hb, fun e he => hst1p, hst1p.2.2.2.2⟩
          · have hbal := stop_playwright_balanced _ hst1p
            exact ⟨fun b hb => hbal, fun e he => by simp at he, hbal.2.2.2⟩
        · exact ⟨fun b hb => by simp at hb, fun e₂ he => hst1p, hst1p.2.2.2.2⟩

lemma fullRetryAux_balanced (envs : Nat → AttemptEnv)
    (lectio_user send_to subject task_id msg : String) (can_be_replied : Bool) :
    ∀ fuel attempt st, BotBalanced st →
      ((fullRetryAux envs lectio_user send_to subject task_id msg can_be_replied
          attempt fuel st).2.isExited = false →
        BotBalanced (fullRetryAux envs lectio_user send_to subject task_id msg
          can_be_replied attempt fuel st).1) ∧
      (fullRetryAux envs lectio_user send_to subject task_id msg can_be_replied
        attempt fuel st).1.maxOpen ≤ 1 := by
  intro fuel
  induction fuel with
  | zero => intro attempt st h; exact ⟨fun _ => h, h.2.2.2⟩
  | succ fuel ih =>
    intro attempt st h
    have hstep : BotBalanced { st with attempts := st.attempts + 1 } := by
      obtain ⟨g1, g2, g3, g4⟩ := h
      exact ⟨g1, g2, g3, g4⟩
    have hfa := flowAttempt_balanced { st with attempts := st.attempts + 1 } (envs attempt)
      lectio_user send_to subject msg can_be_replied hstep
    simp only [fullRetryAux]
    rcases heq : flowAttempt { st with attempts := st.attempts + 1 } (envs attempt)
        lectio_user send_to subject msg can_be_replied with ⟨st2, out⟩
    rw [heq] at hfa
    cases out with
    | exited c => exact ⟨fun hx => by simp [FlowOutcome.isExited] at hx, hfa.2.2⟩
    | ret b =>
      have hb := hfa.1 b rfl
      exact ⟨fun _ => hb, hb.2.2.2⟩
    | raised e =>
      have hst2 : BotStarted st2 := hfa.2.1 e rfl
      have hbal := stop_playwright_balanced st2 hst2
      simp only []
      split
      · have hbalp : BotBalanced
            { stop_playwright st2 with
              pending := (stop_playwright st2).pending ++
                [flowErrorCall task_id send_to e] } := by
          obtain ⟨g1, g2, g3, g4⟩ := hbal
          exact ⟨g1, g2, g3, g4⟩
        exact ⟨fun _ => hbalp, hbalp.2.2.2⟩
      · have hbalp : BotBalanced
            { stop_playwright st2 with
              pending := (stop_playwright st2).pending ++
                [flowInfoCall task_id send_to attempt e] } := by
          obtain ⟨g1, g2, g3, g4⟩ := hbal
          exact ⟨g1, g2, g3, g4⟩
        exact ih (attempt + 1) _ hbalp

/-- C5 (amended): in every invocation of the flow-level retry wrapper,
aborted or not, at most one browser session is ever open at a time; and
whenever no browser startup of any attempt aborts the process
(start_playwright calls sys.exit(1) when one of its own steps fails,
bypassing every cleanup), the session open and close calls balance and no
session is left open. -/
theorem flow_retry_session_balance (envs : Nat → AttemptEnv)
    (lectio_user send_to subject task_id msg : String) (can_be_replied : Bool) :
    (send_message_with_full_retry envs lectio_user send_to subject task_id msg
      can_be_replied).1.maxOpen ≤ 1 ∧
    ((send_message_with_full_retry envs lectio_user send_to subject task_id msg
        can_be_replied).2.isExited = false →
      (send_message_with_full_retry envs lectio_user send_to subject task_id msg
        can_be_replied).1.opens =
        (send_message_with_full_retry envs lectio_user send_to subject task_id msg
          can_be_replied).1.closes ∧
      (send_message_with_full_retry envs lectio_user send_to subject task_id msg
        can_be_replied).1.browserOpen = false) := by
  have h0 : BotBalanced {} := ⟨rfl, rfl, rfl, by simp⟩
  have hh := fullRetryAux_balanced envs lectio_user send_to subject task_id msg
    can_be_replied MAX_FLOW_RETRIES 1 {} h0
  unfold send_message_with_full_retry
  refine ⟨hh.2, fun h => ?_⟩
  obtain ⟨g1, g2, g3, _⟩ := hh.1 h
  exact ⟨g3, g1⟩

/-- Witness for the amended C5 theorem: an invocation whose single attempt
succeeds end to end, discharging the no-abort hypothesis of the balance
part concretely. -/
theorem flow_retry_session_balance_witness :
    (send_message_with_full_retry (fun _ => okAttempt "u1") "u1" "John Doe" "s" "t1" "m"
      true).1.maxOpen ≤ 1 ∧
    (send_message_with_full_retry (fun _ => okAttempt "u1") "u1" "John Doe" "s" "t1" "m"
      true).2.isExited = false ∧
    ((send_message_with_full_retry (fun _ => okAttempt "u1") "u1" "John Doe" "s" "t1" "m"
        true).1.opens =
      (send_message_with_full_retry (fun _ => okAttempt "u1") "u1" "John Doe" "s" "t1" "m"
        true).1.closes ∧
     (send_message_with_full_retry (fun _ => okAttempt "u1") "u1" "John Doe" "s" "t1" "m"
        true).1.browserOpen = false) :=
  ⟨(flow_retry_session_balance (fun _ => okAttempt "u1") "u1" "John Doe" "s" "t1" "m"
      true).1,
   by decide,
   (flow_retry_session_balance (fun _ => okAttempt "u1") "u1" "John Doe" "s" "t1" "m"
      true).2 (by decide)⟩

/-- An attempt environment whose browser startup fails at new_page: the
driver starts and the browser launches (one session opened), then
new_page raises, start_playwright catches it and calls sys.exit(1). -/
def newPageFailEnvs : Nat → AttemptEnv :=
  fun _ => { okAttempt "u1" with newPage := some "new_page failed" }

/-- Counterexample to C5 as stated: in the invocation whose first
attempt fails its new_page call, a browser session is opened, the attempt
fails, and the session is never closed — the process exits from inside
start_playwright (sys.exit raises SystemExit, which the wrapper clause
`except Exception` does not catch), so opens ≠ closes for this
invocation. -/
theorem flow_retry_session_balance_counterexample :
    (send_message_with_full_retry newPageFailEnvs "u1" "John Doe" "s" "t1" "m" true).1.opens =
      1 ∧
    (send_message_with_full_retry newPageFailEnvs "u1" "John Doe" "s" "t1" "m"
      true).1.closes = 0 ∧
    (send_message_with_full_retry newPageFailEnvs "u1" "John Doe" "s" "t1" "m"
      true).1.browserOpen = true ∧
    (send_message_with_full_retry newPageFailEnvs "u1" "John Doe" "s" "t1" "m" true).2 =
      .exited 1 ∧
    ¬ (send_message_with_full_retry newPageFailEnvs "u1" "John Doe" "s" "t1" "m"
        true).1.opens =
      (send_message_with_full_retry newPageFailEnvs "u1" "John Doe" "s" "t1" "m"
        true).1.closes := by
  refine ⟨by decide, by decide, by decide, by decide, by decide⟩

/-- Attempt environments in which every flow attempt fails at the login
page check (login_to_lectio returns False) and everything else succeeds. -/
def loginFailEnvs : Nat → AttemptEnv :=
  fun _ => { okAttempt "u1" with loginTitleCheck := some "Lectio Log ind not found" }

/-- C2 (evaluation at an invocation whose every attempt fails): the flow
retry wrapper performs exactly 20 attempts, re-raises the final error (no
further retry), and constructs 19 INFO log_event calls plus 1 ERROR call —
but log_event is an async coroutine that the wrapper never awaits, so all
20 calls stay pending coroutines and not a single record is appended to
the store, contrary to the per-retry and terminal records the claim
describes. -/
theorem flow_retry_attempts_and_unrun_logs :
    (send_message_with_full_retry loginFailEnvs "u1" "John Doe" "s" "t1" "m" true).2 =
      .raised "login_to_lectio() failed" ∧
    (send_message_with_full_retry loginFailEnvs "u1" "John Doe" "s" "t1" "m" true).1.attempts =
      20 ∧
    (send_message_with_full_retry loginFailEnvs "u1" "John Doe" "s" "t1" "m" true).1.pending.countP
      (fun c => c.level == .INFO) = 19 ∧
    (send_message_with_full_retry loginFailEnvs "u1" "John Doe" "s" "t1" "m" true).1.pending.countP
      (fun c => c.level == .ERROR) = 1 ∧
    (send_message_with_full_retry loginFailEnvs "u1" "John Doe" "s" "t1" "m" true).1.pending.map
      (fun c => c.description) =
      (List.range' 1 19).map
        (fun i => s!"Flow attempt {i}/{MAX_FLOW_RETRIES} failed with error: " ++
          "login_to_lectio() failed. Will retry from scratch...") ++
        ["Failed entire send flow after 20 attempts. Last error: login_to_lectio() failed"] ∧
    (send_message_with_full_retry loginFailEnvs "u1" "John Doe" "s" "t1" "m" true).1.storeAppends =
      [] := by
  refine ⟨by decide, by decide, by decide, by decide, by decide, by decide⟩

/-! Helper lemmas for C9: no LectioBot code path touches storeAppends
(nothing in lectio.py runs the log_event coroutines it constructs). -/

lemma start_playwright_storeAppends (st : BotState) (a : AttemptEnv) :
    (start_playwright st a).1.storeAppends = st.storeAppends := by
  unfold start_playwright
  rcases a.driverStart with _ | e
  · rcases a.browserLaunch with _ | e
    · rcases a.newPage with _ | e <;> simp
    · simp
  · simp

lemma stop_playwright_storeAppends (st : BotState) :
    (stop_playwright st).storeAppends = st.storeAppends := by
  unfold stop_playwright
  split <;> simp

lemma flowAttempt_storeAppends (st : BotState) (a : AttemptEnv)
    (lectio_user send_to subject msg : String) (can_be_replied : Bool) :
    (flowAttempt st a lectio_user send_to subject msg can_be_replied).1.storeAppends =
      st.storeAppends := by
  unfold flowAttempt
  rcases hsp : start_playwright st a with ⟨st1, r1⟩
  have h1 : st1.storeAppends = st.storeAppends := by
    have := start_playwright_storeAppends st a
    rw [hsp] at this
    exact this
  cases r1
  · simp only []
    split
    · simpa using h1
    · split
      · simpa using h1
      · rcases send_message (some a.send) send_to subject msg can_be_replied with ⟨o, calls⟩
        rcases o with b | e
        · rcases b <;> simp [stop_playwright_storeAppends, h1]
        · simpa using h1
  · simpa using h1

lemma fullRetryAux_storeAppends (envs : Nat → AttemptEnv)
    (lectio_user send_to subject task_id msg : String) (can_be_replied : Bool) :
    ∀ fuel attempt st,
      (fullRetryAux envs lectio_user send_to subject task_id msg can_be_replied
        attempt fuel st).1.storeAppends = st.storeAppends := by
  intro fuel
  induction fuel with
  | zero => intro attempt st; rfl
  | succ fuel ih =>
    intro attempt st
    simp only [fullRetryAux]
    rcases hfa : flowAttempt { st with attempts := st.attempts + 1 } (envs attempt)
        lectio_user send_to subject msg can_be_replied with ⟨st2, out⟩
    have h2 : st2.storeAppends = st.storeAppends := by
      have := flowAttempt_storeAppends { st with attempts := st.attempts + 1 } (envs attempt)
        lectio_user send_to subject msg can_be_replied
      rw [hfa] at this
      simpa using this
    cases out with
    | ret b => simpa using h2
    | raised e =>
      simp only []
      split
      · simp [stop_playwright_storeAppends, h2]
      · rw [ih]
        simp [stop_playwright_storeAppends, h2]
    | exited c => simpa using h2

/-- C9: log_event is an async coroutine function and every call to it in
lectio.py (the recipient-failure ERROR in send_message, the per-attempt
INFO and the final ERROR in send_message_with_full_retry) is made without
awaiting or running the coroutine, so no invocation of the retry wrapper
ever appends a record to the log store — even while, as the concrete
all-attempts-fail invocation shows, it constructs 20 such pending
coroutines. -/
theorem lectio_log_calls_never_reach_store :
    (∀ (envs : Nat → AttemptEnv) (lectio_user send_to subject task_id msg : String)
        (can_be_replied : Bool),
      (send_message_with_full_retry envs lectio_user send_to subject task_id msg
        can_be_replied).1.storeAppends = []) ∧
    (send_message_with_full_retry loginFailEnvs "u1" "John Doe" "s" "t1" "m"
      true).1.pending.length = 20 := by
  constructor
  · intro envs lectio_user send_to subject task_id msg can_be_replied
    unfold send_message_with_full_retry
    rw [fullRetryAux_storeAppends]
  · decide

/-- C10: every ERROR log_event call produced by the recipient-field
retry on its final failure carries task_id N/A (never the id of the
originating job), and the log query by task_id only ever returns records whose task_id
equals the queried job id — so a query by any job id other than the
literal N/A can never return that recipient-failure record (which, being
an unawaited coroutine, is in fact never inserted at all). -/
theorem recipient_error_invisible_to_job_queries :
    (∀ (env : PageEnv) (send_to subject msg : String) (can_be_replied : Bool),
      ∀ c ∈ (send_message (some env) send_to subject msg can_be_replied).2,
        c.task_id = "N/A" ∧ c.level = .ERROR) ∧
    (∀ (store : List LogRecord) (tid : String),
      ∀ r ∈ fetch_logs_by_task_id store tid, r.task_id = tid) := by
  constructor
  · intro env send_to subject msg can_be_replied
    exact send_message_calls_na env send_to subject msg can_be_replied
  · intro store tid r hr
    unfold fetch_logs_by_task_id at hr
    rw [mem_sortByIdDesc, List.mem_filter] at hr
    exact beq_iff_eq.mp hr.2

/-- Witness for C10: the concrete recipient-failure call of the
all-20-failures stub carries task_id N/A, and a concrete query only
returns rows of the queried task id. -/
theorem recipient_error_invisible_to_job_queries_witness :
    (recipientErrorCall "John Doe" "no clickable suggestion") ∈
      (send_message (some alwaysFailClickPage) "John Doe" "s" "m" true).2 ∧
    ((recipientErrorCall "John Doe" "no clickable suggestion").task_id = "N/A" ∧
     (recipientErrorCall "John Doe" "no clickable suggestion").level = .ERROR) ∧
    ({ id := 1, timestamp := 0, log_level := .INFO, task_id := "a", receiver := "r",
       description := "d1" } : LogRecord) ∈ fetch_logs_by_task_id store3 "a" ∧
    ({ id := 1, timestamp := 0, log_level := .INFO, task_id := "a", receiver := "r",
       description := "d1" } : LogRecord).task_id = "a" :=
  ⟨by decide,
   recipient_error_invisible_to_job_queries.1 alwaysFailClickPage "John Doe" "s" "m" true
     _ (by decide),
   by decide,
   recipient_error_invisible_to_job_queries.2 store3 "a" _ (by decide)⟩
